import Mathlib

/-!
Shallow embedding of the adaptive-learning mastery logic of the repository
(`backend/services/adaptive_learning.py`) and of the quiz statistics helper
(`backend/routers/quiz.py`), together with theorems settling the frozen
claims about them.

Python floats are modelled as exact rationals (`ℚ`) where the source only
performs field arithmetic, and as real numbers (`ℝ`) where the source calls
`math.exp` / square roots.  The SQLAlchemy-backed mastery store is modelled
from the spec: the ORM class `models.StudentMastery` referenced by the source
is not present in `models.py`; the spec describes it as a keyed record
(student_id, concept_id) holding a single float `mastery_score`, which we
model as a partial map from the key pair to the stored score.
-/

/-- Embeds the class `BayesianKnowledgeTracer` of
`backend/services/adaptive_learning.py` (its four constructor parameters,
with the source's default values). -/
structure BayesianKnowledgeTracer where
  init_prior : ℚ := 0.5
  learn_rate : ℚ := 0.3
  guess_rate : ℚ := 0.1
  slip_rate : ℚ := 0.1

namespace BayesianKnowledgeTracer

/-- The Bayes numerator of `update_mastery` (lines 28 and 32 of
`adaptive_learning.py`): `prev * (1 - slip)` on a correct observation,
`prev * (1 - (1 - slip))` on an incorrect one. -/
def bayes_numerator (m : BayesianKnowledgeTracer) (prev_mastery : ℚ)
    (correctness : Bool) : ℚ :=
  let p_correct_given_knowledge := 1 - m.slip_rate
  if correctness then
    prev_mastery * p_correct_given_knowledge
  else
    prev_mastery * (1 - p_correct_given_knowledge)

/-- The Bayes denominator of `update_mastery` (lines 29 and 33 of
`adaptive_learning.py`). -/
def bayes_denominator (m : BayesianKnowledgeTracer) (prev_mastery : ℚ)
    (correctness : Bool) : ℚ :=
  let p_correct_given_knowledge := 1 - m.slip_rate
  let p_correct_given_no_knowledge := m.guess_rate
  if correctness then
    prev_mastery * p_correct_given_knowledge
      + (1 - prev_mastery) * p_correct_given_no_knowledge
  else
    prev_mastery * (1 - p_correct_given_knowledge)
      + (1 - prev_mastery) * (1 - p_correct_given_no_knowledge)

/-- Embeds `BayesianKnowledgeTracer.update_mastery`
(`adaptive_learning.py`, lines 15-42): Bayes update of the mastery
probability from the correctness observation, guarded by the
denominator-zero check, followed by the learning-rate blend
`min(1, new + learn_rate * (1 - new))`. -/
def update_mastery (m : BayesianKnowledgeTracer) (prev_mastery : ℚ)
    (correctness : Bool) : ℚ :=
  let numerator := m.bayes_numerator prev_mastery correctness
  let denominator := m.bayes_denominator prev_mastery correctness
  if denominator = 0 then
    prev_mastery
  else
    let new_mastery := numerator / denominator
    min 1 (new_mastery + m.learn_rate * (1 - new_mastery))

end BayesianKnowledgeTracer

/-- The module-level `bkt_model = BayesianKnowledgeTracer()` of
`adaptive_learning.py` (line 45), with all default parameters. -/
def bkt_model : BayesianKnowledgeTracer := {}

/-- Modelled from the spec: the `models.StudentMastery` ORM class is absent
from `models.py`; per the spec a MasteryRecord has composite key
(student_id, concept_id) and a single float attribute `mastery_score`.  We
model the table as a partial map from the key pair to the stored score
(`db.query(StudentMastery).filter(student_id, concept_id).first()` becomes
map lookup; assigning `mastery_score` or `db.add` of a fresh record becomes
a point update). -/
def MasteryDb (α : Type) : Type := Int × Int → Option α

/-- Point update of the mastery store: what a mutation of the matched
record's `mastery_score` (or a `db.add` of a fresh record) followed by
`db.commit()` leaves at the (student, concept) key. -/
def MasteryDb.store {α : Type} (db : MasteryDb α) (student_id concept_id : Int)
    (v : α) : MasteryDb α :=
  fun p => if p = (student_id, concept_id) then some v else db p

/-- Embeds `update_mastery_score` (`adaptive_learning.py`, lines 195-258):
converts the percentage score to a correctness bit via `score >= 70`,
defaults the question difficulty to 0.5, and either mutates the existing
record through an IRT-weighted BKT update or creates a new record from the
initial mastery 0.5 / 0.2.  The unused `weighted_correctness` assignments of
the source (lines 220 and 226) are dead code and are not modelled. -/
def update_mastery_score (student_id concept_id : Int) (score : ℚ)
    (db : MasteryDb ℚ) (question_difficulty : Option ℚ) : MasteryDb ℚ :=
  let correctness : Bool := 70 ≤ score
  let irt_difficulty := question_difficulty.getD 0.5
  match db (student_id, concept_id) with
  | some stored =>
    let prev_mastery := stored / 100
    let new_mastery :=
      if correctness then
        let nm := bkt_model.update_mastery prev_mastery true
        prev_mastery + (nm - prev_mastery) * (1 + irt_difficulty * 0.3)
      else
        let nm := bkt_model.update_mastery prev_mastery false
        prev_mastery + (nm - prev_mastery) * (1 + (1 - irt_difficulty) * 0.3)
    let new_mastery := max 0 (min 1 new_mastery)
    db.store student_id concept_id (new_mastery * 100)
  | none =>
    let initial_mastery : ℚ := if correctness then 0.5 else 0.2
    let new_mastery := bkt_model.update_mastery initial_mastery correctness
    let new_mastery :=
      match question_difficulty with
      | some qd =>
        if correctness then
          min 1 (initial_mastery + (1 - initial_mastery) * (1 + qd * 0.3))
        else
          max 0 (initial_mastery - initial_mastery * (1 - qd) * 0.3)
      | none => new_mastery
    let new_mastery := max 0 (min 1 new_mastery)
    db.store student_id concept_id (new_mastery * 100)

/-- The 2-parameter-logistic response probability of
`update_mastery_score_with_irt` (`adaptive_learning.py`, lines 287-293 and
311-316): `1 / (1 + exp(-D * a * (theta - b)))` with `D = 1.7`. -/
noncomputable def irt_prob_correct (theta difficulty discrimination : ℝ) : ℝ :=
  1 / (1 + Real.exp (-(1.7) * discrimination * (theta - difficulty)))

/-- Embeds `update_mastery_score_with_irt` (`adaptive_learning.py`,
lines 260-333): correctness bit from `score >= 70`, then either mutates the
existing record by nudging `theta = mastery_score / 100` by
`(1 - p) * 0.1 * a` upward (clamped at 1) on a correct answer or by
`p * 0.1 * a` downward (clamped at 0) on an incorrect one, or creates a new
record from the initial theta 0.5 / 0.2 with the same nudge. -/
noncomputable def update_mastery_score_with_irt (student_id concept_id : Int)
    (score : ℝ) (question_irt_difficulty discrimination_index : ℝ)
    (db : MasteryDb ℝ) : MasteryDb ℝ :=
  let correctness : Bool := 70 ≤ score
  let a := discrimination_index
  let b := question_irt_difficulty
  match db (student_id, concept_id) with
  | some stored =>
    let current_theta := stored / 100
    let prob_correct := irt_prob_correct current_theta b a
    let new_theta :=
      if correctness then
        min 1 (current_theta + (1 - prob_correct) * 0.1 * a)
      else
        max 0 (current_theta - prob_correct * 0.1 * a)
    db.store student_id concept_id (new_theta * 100)
  | none =>
    let initial_theta : ℝ := if correctness then 0.5 else 0.2
    let prob_correct := irt_prob_correct initial_theta b a
    let new_theta :=
      if correctness then
        min 1 (initial_theta + (1 - prob_correct) * 0.1 * a)
      else
        max 0 (initial_theta - prob_correct * 0.1 * a)
    db.store student_id concept_id (new_theta * 100)

/-- Reference definition following the spec's words for the BKT update
(spec §4.1): Bayes posterior `P(knows | observation)` from the slip/guess
likelihoods (slip rate 0.1, guess rate 0.1), then blended toward 1.0 by the
learn rate 0.3 as `min(1, posterior + 0.3 * (1 - posterior))`.  Written to be
compared with the source-derived `BayesianKnowledgeTracer.update_mastery`. -/
def bkt_spec (prior : ℚ) (correct : Bool) : ℚ :=
  let p_obs_given_knows : ℚ := if correct then 1 - 0.1 else 0.1
  let p_obs_given_not_knows : ℚ := if correct then 0.1 else 1 - 0.1
  let posterior := prior * p_obs_given_knows /
    (prior * p_obs_given_knows + (1 - prior) * p_obs_given_not_knows)
  min 1 (posterior + 0.3 * (1 - posterior))

lemma bkt_num_true (p : ℚ) : bkt_model.bayes_numerator p true = 9/10 * p := by
  simp [BayesianKnowledgeTracer.bayes_numerator, bkt_model]
  norm_num
  ring

lemma bkt_num_false (p : ℚ) : bkt_model.bayes_numerator p false = 1/10 * p := by
  simp [BayesianKnowledgeTracer.bayes_numerator, bkt_model]
  norm_num
  ring

lemma bkt_den_true (p : ℚ) :
    bkt_model.bayes_denominator p true = 1/10 + 8/10 * p := by
  simp [BayesianKnowledgeTracer.bayes_denominator, bkt_model]
  norm_num
  ring

lemma bkt_den_false (p : ℚ) :
    bkt_model.bayes_denominator p false = 9/10 - 8/10 * p := by
  simp [BayesianKnowledgeTracer.bayes_denominator, bkt_model]
  norm_num
  ring

lemma bkt_update_true_eq (p : ℚ) (h0 : 0 ≤ p) :
    bkt_model.update_mastery p true
      = min 1 (3/10 + 7/10 * (9/10 * p / (1/10 + 8/10 * p))) := by
  have hden : bkt_model.bayes_denominator p true ≠ 0 := by
    rw [bkt_den_true]; intro h; nlinarith
  unfold BayesianKnowledgeTracer.update_mastery
  rw [if_neg hden, bkt_num_true, bkt_den_true]
  have hl : bkt_model.learn_rate = 3/10 := by norm_num [bkt_model]
  rw [hl]
  ring_nf

lemma bkt_update_false_eq (p : ℚ) (h1 : p ≤ 1) :
    bkt_model.update_mastery p false
      = min 1 (3/10 + 7/10 * (1/10 * p / (9/10 - 8/10 * p))) := by
  have hden : bkt_model.bayes_denominator p false ≠ 0 := by
    rw [bkt_den_false]; intro h; nlinarith
  unfold BayesianKnowledgeTracer.update_mastery
  rw [if_neg hden, bkt_num_false, bkt_den_false]
  have hl : bkt_model.learn_rate = 3/10 := by norm_num [bkt_model]
  rw [hl]
  ring_nf

/-- Claim C2: for every prior in [0,1] and every observation, the source's
`BayesianKnowledgeTracer.update_mastery` (fixed constants slip 0.1,
guess 0.1, learn 0.3) coincides with the spec's reference definition
`bkt_spec` (Bayes posterior then learn-rate blend toward 1.0), and the
result lies in [0,1]. -/
theorem C2_bkt_matches_spec (p : ℚ) (c : Bool) (h0 : 0 ≤ p) (h1 : p ≤ 1) :
    bkt_model.update_mastery p c = bkt_spec p c ∧
      0 ≤ bkt_model.update_mastery p c ∧ bkt_model.update_mastery p c ≤ 1 := by
  cases c
  · have hden : (0:ℚ) < 9/10 - 8/10 * p := by nlinarith
    have hq0 : 0 ≤ 1/10 * p / (9/10 - 8/10 * p) :=
      div_nonneg (by nlinarith) (le_of_lt hden)
    refine ⟨?_, ?_, ?_⟩
    · rw [bkt_update_false_eq p h1]
      show _ = bkt_spec p false
      unfold bkt_spec
      norm_num
      congr 1
      ring
    · rw [bkt_update_false_eq p h1]
      exact le_min (by norm_num) (by nlinarith)
    · rw [bkt_update_false_eq p h1]
      exact min_le_left _ _
  · have hden : (0:ℚ) < 1/10 + 8/10 * p := by nlinarith
    have hq0 : 0 ≤ 9/10 * p / (1/10 + 8/10 * p) :=
      div_nonneg (by nlinarith) (le_of_lt hden)
    refine ⟨?_, ?_, ?_⟩
    · rw [bkt_update_true_eq p h0]
      show _ = bkt_spec p true
      unfold bkt_spec
      norm_num
      congr 1
      ring
    · rw [bkt_update_true_eq p h0]
      exact le_min (by norm_num) (by nlinarith)
    · rw [bkt_update_true_eq p h0]
      exact min_le_left _ _

/-- Witness for C2 at the concrete prior 1/2 with a correct observation. -/
theorem C2_bkt_matches_spec_witness :
    bkt_model.update_mastery (1/2) true = bkt_spec (1/2) true ∧
      0 ≤ bkt_model.update_mastery (1/2) true ∧
      bkt_model.update_mastery (1/2) true ≤ 1 :=
  C2_bkt_matches_spec (1/2) true (by norm_num) (by norm_num)

/-- Claim C4 as stated is false: the source's BKT update applies the
learn-rate blend toward 1.0 on incorrect answers as well, so at the prior 0
an incorrect observation RAISES the mastery to 0.3 instead of leaving it
below the prior. -/
theorem C4_counterexample : ¬ bkt_model.update_mastery 0 false ≤ 0 := by
  rw [bkt_update_false_eq 0 (by norm_num)]
  norm_num [min_def]

/-- Claim C4, amended: the upward direction holds everywhere in [0,1]
(`update(prior, True) >= prior`), but the downward direction
(`update(prior, False) <= prior`) only holds for priors in [27/80, 1]; below
27/80 the learn-rate blend outweighs the Bayes decrease. -/
theorem C4_bkt_monotone_amended :
    (∀ p : ℚ, 0 ≤ p → p ≤ 1 → p ≤ bkt_model.update_mastery p true) ∧
      (∀ p : ℚ, 27/80 ≤ p → p ≤ 1 → bkt_model.update_mastery p false ≤ p) := by
  constructor
  · intro p h0 h1
    rw [bkt_update_true_eq p h0]
    have hden : (0:ℚ) < 1/10 + 8/10 * p := by nlinarith
    have hq : p ≤ 9/10 * p / (1/10 + 8/10 * p) := by
      rw [le_div_iff hden]; nlinarith
    exact le_min h1 (by nlinarith)
  · intro p h27 h1
    rw [bkt_update_false_eq p h1]
    have hden : (0:ℚ) < 9/10 - 8/10 * p := by nlinarith
    have hq : 1/10 * p / (9/10 - 8/10 * p) ≤ (10 * p - 3) / 7 := by
      rw [div_le_div_iff hden (by norm_num : (0:ℚ) < 7)]
      nlinarith [mul_nonneg (sub_nonneg.2 h1) (by linarith : (0:ℚ) ≤ 80 * p - 27)]
    exact le_trans (min_le_right _ _) (by nlinarith)

/-- Witness for the amended C4 at the concrete prior 1/2 (both directions). -/
theorem C4_bkt_monotone_amended_witness :
    (1/2 : ℚ) ≤ bkt_model.update_mastery (1/2) true ∧
      bkt_model.update_mastery (1/2) false ≤ 1/2 :=
  ⟨C4_bkt_monotone_amended.1 (1/2) (by norm_num) (by norm_num),
    C4_bkt_monotone_amended.2 (1/2) (by norm_num) (by norm_num)⟩

/-- Claim C6 as stated is false: the prior 27/80 lies in [0,1) and is a
fixed point of the incorrect-observation update, so that call is a no-op
below full mastery. -/
theorem C6_counterexample :
    (0 ≤ (27/80 : ℚ) ∧ (27/80 : ℚ) < 1) ∧
      bkt_model.update_mastery (27/80) false = 27/80 := by
  refine ⟨⟨by norm_num, by norm_num⟩, ?_⟩
  rw [bkt_update_false_eq (27/80) (by norm_num)]
  norm_num [min_def]

/-- Claim C6, amended: for every prior in [0,1) the correct-observation
update always moves the mastery, and the incorrect-observation update moves
it except at the single fixed point 27/80. -/
theorem C6_no_noop_amended (p : ℚ) (h0 : 0 ≤ p) (h1 : p < 1) :
    bkt_model.update_mastery p true ≠ p ∧
      (p ≠ 27/80 → bkt_model.update_mastery p false ≠ p) := by
  constructor
  · rw [bkt_update_true_eq p h0]
    have hden : (0:ℚ) < 1/10 + 8/10 * p := by nlinarith
    have hq : p ≤ 9/10 * p / (1/10 + 8/10 * p) := by
      rw [le_div_iff hden]; nlinarith
    have : p < min 1 (3/10 + 7/10 * (9/10 * p / (1/10 + 8/10 * p))) :=
      lt_min h1 (by nlinarith)
    exact ne_of_gt this
  · intro hne heq
    rw [bkt_update_false_eq p (le_of_lt h1)] at heq
    have hden : (0:ℚ) < 9/10 - 8/10 * p := by nlinarith
    set e : ℚ := 3/10 + 7/10 * (1/10 * p / (9/10 - 8/10 * p)) with he
    rcases le_or_lt 1 e with hcase | hcase
    · rw [min_eq_left hcase] at heq
      exact absurd heq.symm (ne_of_lt h1)
    · rw [min_eq_right (le_of_lt hcase)] at heq
      have hmul : (1/10 * p / (9/10 - 8/10 * p)) * (9/10 - 8/10 * p)
          = 1/10 * p := div_mul_cancel₀ _ (ne_of_gt hden)
      have hpoly : (3/10 + 7/10 * (1/10 * p / (9/10 - 8/10 * p)))
            * (9/10 - 8/10 * p) = p * (9/10 - 8/10 * p) := by
        rw [he] at heq
        rw [heq]
      have hfac : (p - 1) * (80 * p - 27) = 0 := by nlinarith [hmul, hpoly]
      rcases mul_eq_zero.mp hfac with h | h
      · exact absurd (by linarith : p = 1) (ne_of_lt h1)
      · exact hne (by linarith)

/-- Witness for the amended C6 at the concrete prior 1/2. -/
theorem C6_no_noop_amended_witness :
    bkt_model.update_mastery (1/2) true ≠ 1/2 ∧
      ((1/2 : ℚ) ≠ 27/80 → bkt_model.update_mastery (1/2) false ≠ 1/2) :=
  C6_no_noop_amended (1/2) (by norm_num) (by norm_num)

/-- Claim C8: with the default parameters (slip 0.1, guess 0.1) the Bayes
denominator of `update_mastery` is nonzero for every prior in [0,1], so the
denominator-zero branch is unreachable under the precondition; and whenever
the denominator IS zero the function returns the prior unchanged, without
the learn-rate blend. -/
theorem C8_bkt_denominator_safety :
    (∀ (p : ℚ) (c : Bool), 0 ≤ p → p ≤ 1 →
        bkt_model.bayes_denominator p c ≠ 0) ∧
      (∀ (p : ℚ) (c : Bool), bkt_model.bayes_denominator p c = 0 →
        bkt_model.update_mastery p c = p) := by
  constructor
  · intro p c h0 h1
    cases c
    · rw [bkt_den_false]; intro h; nlinarith
    · rw [bkt_den_true]; intro h; nlinarith
  · intro p c h
    unfold BayesianKnowledgeTracer.update_mastery
    rw [if_pos h]

/-- Witness for C8: the denominator is nonzero at the in-range prior 1/2,
and at the out-of-range prior 9/8 the incorrect-observation denominator is
exactly zero and the update returns the prior unchanged. -/
theorem C8_bkt_denominator_safety_witness :
    bkt_model.bayes_denominator (1/2) true ≠ 0 ∧
      bkt_model.update_mastery (9/8) false = 9/8 :=
  ⟨C8_bkt_denominator_safety.1 (1/2) true (by norm_num) (by norm_num),
    C8_bkt_denominator_safety.2 (9/8) false (by rw [bkt_den_false]; norm_num)⟩

lemma clamp01_scaled_bounds (x : ℚ) :
    0 ≤ max 0 (min 1 x) * 100 ∧ max 0 (min 1 x) * 100 ≤ 100 := by
  constructor
  · have := le_max_left (0:ℚ) (min 1 x)
    nlinarith
  · have : max 0 (min 1 x) ≤ 1 := max_le (by norm_num) (min_le_left _ _)
    nlinarith

lemma irt_prob_correct_pos (theta b a : ℝ) : 0 < irt_prob_correct theta b a := by
  unfold irt_prob_correct
  have h := Real.exp_pos (-(1.7) * a * (theta - b))
  positivity

lemma irt_prob_correct_lt_one (theta b a : ℝ) : irt_prob_correct theta b a < 1 := by
  unfold irt_prob_correct
  have h := Real.exp_pos (-(1.7) * a * (theta - b))
  rw [div_lt_one (by linarith)]
  linarith

/-- Claim C9: both mastery-update operations depend on the numeric score only
through the predicate `score >= 70`: scores on the same side of the threshold
produce identical resulting stores from identical starting stores. -/
theorem C9_score_only_through_threshold :
    (∀ (s c : Int) (score1 score2 : ℚ) (db : MasteryDb ℚ) (qd : Option ℚ),
        ((70 ≤ score1) ↔ (70 ≤ score2)) →
        update_mastery_score s c score1 db qd
          = update_mastery_score s c score2 db qd) ∧
      (∀ (s c : Int) (score1 score2 b a : ℝ) (db : MasteryDb ℝ),
        ((70 ≤ score1) ↔ (70 ≤ score2)) →
        update_mastery_score_with_irt s c score1 b a db
          = update_mastery_score_with_irt s c score2 b a db) := by
  constructor
  · intro s c score1 score2 db qd h
    have hd : decide (70 ≤ score1) = decide (70 ≤ score2) :=
      decide_eq_decide.mpr h
    unfold update_mastery_score
    rw [hd]
  · intro s c score1 score2 b a db h
    have hd : decide (70 ≤ score1) = decide (70 ≤ score2) :=
      decide_eq_decide.mpr h
    unfold update_mastery_score_with_irt
    rw [hd]

/-- Witness for C9 at the concrete score pair (80, 95), both at or above the
70 threshold, on the empty store. -/
theorem C9_score_only_through_threshold_witness :
    update_mastery_score 1 2 80 (fun _ => none) (some (1/2))
        = update_mastery_score 1 2 95 (fun _ => none) (some (1/2)) ∧
      update_mastery_score_with_irt 1 2 80 (1/2) 1 (fun _ => none)
        = update_mastery_score_with_irt 1 2 95 (1/2) 1 (fun _ => none) :=
  ⟨C9_score_only_through_threshold.1 1 2 80 95 (fun _ => none) (some (1/2))
      (by norm_num),
    C9_score_only_through_threshold.2 1 2 80 95 (1/2) 1 (fun _ => none)
      (by norm_num)⟩

lemma irt_new_theta_bounds (theta b a : ℝ) (c : Bool) (h0 : 0 ≤ theta)
    (h1 : theta ≤ 1) (ha : 0 < a) :
    0 ≤ (if c then min 1 (theta + (1 - irt_prob_correct theta b a) * 0.1 * a)
          else max 0 (theta - irt_prob_correct theta b a * 0.1 * a)) ∧
      (if c then min 1 (theta + (1 - irt_prob_correct theta b a) * 0.1 * a)
          else max 0 (theta - irt_prob_correct theta b a * 0.1 * a)) ≤ 1 := by
  have hp0 := irt_prob_correct_pos theta b a
  have hp1 := irt_prob_correct_lt_one theta b a
  cases c
  · simp only [Bool.false_eq_true, if_false]
    refine ⟨le_max_left _ _, max_le (by norm_num) ?_⟩
    nlinarith
  · simp only [if_true]
    refine ⟨le_min (by norm_num) ?_, min_le_left _ _⟩
    nlinarith

lemma ums_apply_shape (s c : Int) (score : ℚ) (db : MasteryDb ℚ)
    (qd : Option ℚ) :
    ∃ x : ℚ, update_mastery_score s c score db qd (s, c)
      = some (max 0 (min 1 x) * 100) := by
  cases hdb : db (s, c) with
  | none =>
    exact ⟨_, by
      simp only [update_mastery_score, hdb, MasteryDb.store, if_pos rfl, if_true]
      exact rfl⟩
  | some stored =>
    exact ⟨_, by
      simp only [update_mastery_score, hdb, MasteryDb.store, if_pos rfl, if_true]
      exact rfl⟩

lemma irt_apply_shape (s c : Int) (score b a : ℝ) (db : MasteryDb ℝ) :
    ∃ theta : ℝ,
      update_mastery_score_with_irt s c score b a db (s, c)
        = some ((if decide (70 ≤ score) = true
              then min 1 (theta + (1 - irt_prob_correct theta b a) * 0.1 * a)
              else max 0 (theta - irt_prob_correct theta b a * 0.1 * a)) * 100)
        ∧ ((db (s, c) = none ∧ (theta = 0.5 ∨ theta = 0.2)) ∨
            ∃ stored, db (s, c) = some stored ∧ theta = stored / 100) := by
  cases hdb : db (s, c) with
  | none =>
    refine ⟨if decide (70 ≤ score) = true then (0.5:ℝ) else 0.2, ?_,
      Or.inl ⟨rfl, by split <;> simp⟩⟩
    simp only [update_mastery_score_with_irt, hdb, MasteryDb.store, if_pos rfl, if_true]
  | some stored =>
    refine ⟨stored / 100, ?_, Or.inr ⟨stored, rfl, rfl⟩⟩
    simp only [update_mastery_score_with_irt, hdb, MasteryDb.store, if_pos rfl, if_true]

/-- Claim C1: a single call to `update_mastery_score`, and a single call to
`update_mastery_score_with_irt` with positive discrimination, leaves the
stored `mastery_score` at the updated (student, concept) key in [0,100] —
both on the branch that creates a new record and on the branch that mutates
an existing one — provided any previously stored score was itself in
[0,100] (covering in particular priors 0 and 100).  For
`update_mastery_score` the final clamp makes the bound hold without any
hypothesis on the prior. -/
theorem C1_mastery_score_in_range (s c : Int) (score : ℚ) (qd : Option ℚ)
    (scoreR b a : ℝ) (dbQ : MasteryDb ℚ) (dbR : MasteryDb ℝ)
    (hR : ∀ v, dbR (s, c) = some v → 0 ≤ v ∧ v ≤ 100) (ha : 0 < a) :
    (∃ v, update_mastery_score s c score dbQ qd (s, c) = some v ∧
        0 ≤ v ∧ v ≤ 100) ∧
      (∃ v, update_mastery_score_with_irt s c scoreR b a dbR (s, c) = some v ∧
        0 ≤ v ∧ v ≤ 100) := by
  constructor
  · obtain ⟨x, hx⟩ := ums_apply_shape s c score dbQ qd
    exact ⟨_, hx, clamp01_scaled_bounds x⟩
  · obtain ⟨theta, htheta, hcase⟩ := irt_apply_shape s c scoreR b a dbR
    have hθ : 0 ≤ theta ∧ theta ≤ 1 := by
      rcases hcase with ⟨-, h | h⟩ | ⟨stored, hst, h⟩
      · rw [h]; norm_num
      · rw [h]; norm_num
      · have := hR stored hst
        rw [h]; constructor <;> nlinarith [this.1, this.2]
    have hb := irt_new_theta_bounds theta b a (decide (70 ≤ scoreR))
      hθ.1 hθ.2 ha
    refine ⟨_, htheta, ?_, ?_⟩
    · nlinarith [hb.1]
    · nlinarith [hb.2]

/-- Witness for C1: fresh record branches at student 1, concept 2, score 80,
medium difficulty, discrimination 1, on the empty store. -/
theorem C1_mastery_score_in_range_witness :
    (∃ v, update_mastery_score 1 2 80 (fun _ => none) (some (1/2)) (1, 2)
        = some v ∧ 0 ≤ v ∧ v ≤ 100) ∧
      (∃ v, update_mastery_score_with_irt 1 2 80 (1/2) 1 (fun _ => none) (1, 2)
        = some v ∧ 0 ≤ v ∧ v ≤ 100) :=
  C1_mastery_score_in_range 1 2 80 (some (1/2)) 80 (1/2) 1
    (fun _ => none) (fun _ => none) (fun v h => by simp at h) (by norm_num)

/-- Claim C3: on an existing record, `update_mastery_score_with_irt` computes
`p = 1 / (1 + exp(-1.7 * a * (theta - b)))` from `theta = stored / 100`, adds
`(1 - p) * 0.1 * a` (clamped at 1) when the score meets the 70 threshold and
subtracts `p * 0.1 * a` (clamped at 0) otherwise; concretely, with stored
mastery 50 (theta 0.5), difficulty 0.5, discrimination 1 and a passing
score, the new stored mastery is 55 (theta 0.55). -/
theorem C3_irt_update_formula :
    (∀ (s c : Int) (score b a stored : ℝ) (db : MasteryDb ℝ),
        db (s, c) = some stored →
        update_mastery_score_with_irt s c score b a db (s, c)
          = some ((if 70 ≤ score
              then min 1 (stored / 100 +
                (1 - 1 / (1 + Real.exp (-(1.7) * a * (stored / 100 - b))))
                  * 0.1 * a)
              else max 0 (stored / 100 -
                (1 / (1 + Real.exp (-(1.7) * a * (stored / 100 - b))))
                  * 0.1 * a)) * 100)) ∧
      (∀ (s c : Int) (score : ℝ) (db : MasteryDb ℝ),
        db (s, c) = some 50 → 70 ≤ score →
        update_mastery_score_with_irt s c score (1/2) 1 db (s, c)
          = some 55) := by
  have general : ∀ (s c : Int) (score b a stored : ℝ) (db : MasteryDb ℝ),
      db (s, c) = some stored →
      update_mastery_score_with_irt s c score b a db (s, c)
        = some ((if 70 ≤ score
            then min 1 (stored / 100 +
              (1 - 1 / (1 + Real.exp (-(1.7) * a * (stored / 100 - b))))
                * 0.1 * a)
            else max 0 (stored / 100 -
              (1 / (1 + Real.exp (-(1.7) * a * (stored / 100 - b))))
                * 0.1 * a)) * 100) := by
    intro s c score b a stored db hdb
    by_cases h : 70 ≤ score <;>
      simp [update_mastery_score_with_irt, hdb, MasteryDb.store,
        irt_prob_correct, h]
  refine ⟨general, ?_⟩
  intro s c score db hdb h
  rw [general s c score (1/2) 1 50 db hdb, if_pos h]
  have hz : -(1.7:ℝ) * 1 * (50 / 100 - 1/2) = 0 := by norm_num
  rw [hz, Real.exp_zero]
  norm_num [min_def]

/-- Witness for C3: concrete call on a store holding mastery 50 at
(student 1, concept 2), with score 80, difficulty 1/2, discrimination 1. -/
theorem C3_irt_update_formula_witness :
    update_mastery_score_with_irt 1 2 80 (1/2) 1
        (fun p => if p = (1, 2) then some 50 else none) (1, 2) = some 55 :=
  C3_irt_update_formula.2 1 2 80 _ (by simp) (by norm_num)

lemma ums_some_eq (s c : Int) (score : ℚ) (db : MasteryDb ℚ) (qd : Option ℚ)
    (stored : ℚ) (hdb : db (s, c) = some stored) :
    update_mastery_score s c score db qd (s, c)
      = some (max 0 (min 1 (if 70 ≤ score
          then stored / 100 + (bkt_model.update_mastery (stored / 100) true
            - stored / 100) * (1 + qd.getD 0.5 * 0.3)
          else stored / 100 + (bkt_model.update_mastery (stored / 100) false
            - stored / 100) * (1 + (1 - qd.getD 0.5) * 0.3))) * 100) := by
  by_cases h : 70 ≤ score <;>
    simp [update_mastery_score, hdb, MasteryDb.store, h]

lemma ums_none_correct_qd (s c : Int) (score : ℚ) (db : MasteryDb ℚ) (q : ℚ)
    (h : 70 ≤ score) (hdb : db (s, c) = none) :
    update_mastery_score s c score db (some q) (s, c)
      = some (max 0 (min 1 (min 1 (0.5 + (1 - 0.5) * (1 + q * 0.3)))) * 100) := by
  simp [update_mastery_score, hdb, MasteryDb.store, h]

lemma bkt_update_one_false : bkt_model.update_mastery (100 / 100) false = 1 := by
  rw [bkt_update_false_eq (100 / 100) (by norm_num)]
  norm_num [min_def]

/-- Claim C5 as stated is false at the concrete scenario it describes: on a
fresh (student 1, concept 2) pair, a correct answer (score 80 ≥ 70) on a
medium-difficulty question (question_difficulty 0.5 passed explicitly)
creates the record with mastery 100 (the IRT boost for new students
saturates the clamp), and the subsequent incorrect answer (score 0) leaves
the stored mastery at exactly 100 — it is NOT strictly lower. -/
theorem C5_counterexample :
    update_mastery_score 1 2 80 (fun _ => none) (some (1/2)) (1, 2)
        = some 100 ∧
      update_mastery_score 1 2 0
          (update_mastery_score 1 2 80 (fun _ => none) (some (1/2)))
          (some (1/2)) (1, 2) = some 100 := by
  have h1 : update_mastery_score 1 2 80 (fun _ => none) (some (1/2)) (1, 2)
      = some 100 := by
    rw [ums_none_correct_qd 1 2 80 (fun _ => none) (1/2) (by norm_num) rfl]
    norm_num [min_def, max_def]
  refine ⟨h1, ?_⟩
  rw [ums_some_eq 1 2 0 _ (some (1/2)) 100 h1, if_neg (by norm_num),
    bkt_update_one_false]
  norm_num [min_def, max_def]

/-- Claim C5, amended: starting with no record, one call with a passing
score and explicit question_difficulty 0.5 creates the record with mastery
100 (in particular strictly greater than 50); a subsequent call with a
failing score then leaves the stored mastery unchanged at 100 — still in
[0,100] but not strictly lower (the BKT posterior at prior 1 is 1, so an
incorrect answer cannot lower a saturated score). -/
theorem C5_scenario_amended (s c : Int) (score1 score2 : ℚ) (db : MasteryDb ℚ)
    (hdb : db (s, c) = none) (h1 : 70 ≤ score1) (h2 : score2 < 70) :
    update_mastery_score s c score1 db (some (1/2)) (s, c) = some 100 ∧
      update_mastery_score s c score2
          (update_mastery_score s c score1 db (some (1/2)))
          (some (1/2)) (s, c) = some 100 := by
  have hfirst : update_mastery_score s c score1 db (some (1/2)) (s, c)
      = some 100 := by
    rw [ums_none_correct_qd s c score1 db (1/2) h1 hdb]
    norm_num [min_def, max_def]
  refine ⟨hfirst, ?_⟩
  rw [ums_some_eq s c score2 _ (some (1/2)) 100 hfirst,
    if_neg (not_le.mpr h2), bkt_update_one_false]
  norm_num [min_def, max_def]

/-- Witness for the amended C5 at student 1, concept 2, scores 80 then 0, on
the empty store. -/
theorem C5_scenario_amended_witness :
    update_mastery_score 1 2 80 (fun _ => none) (some (1/2)) (1, 2)
        = some 100 ∧
      update_mastery_score 1 2 0
          (update_mastery_score 1 2 80 (fun _ => none) (some (1/2)))
          (some (1/2)) (1, 2) = some 100 :=
  C5_scenario_amended 1 2 80 0 (fun _ => none) rfl (by norm_num) (by norm_num)

/-- Python's `int()` float-to-int conversion on a rational: truncation toward
zero (used for `int(mastery_score / 20)`). -/
def pyInt (x : ℚ) : Int := if 0 ≤ x then ⌊x⌋ else ⌈x⌉

/-- Modelled from the spec: one row of the mastery store as queried by
`get_adaptive_assignments` (the `models.StudentMastery` ORM class is absent
from `models.py`; the spec describes the keyed record). -/
structure StudentMasteryRow where
  student_id : Int
  concept_id : Int
  mastery_score : ℚ

/-- The `prerequisite_ids` TEXT column of a concept row, as consumed by
`get_adaptive_assignments`: `null` covers NULL / empty text (falsy in the
`if concept.prerequisite_ids:` guard), `invalid` covers non-empty text on
which `json.loads` raises, and `valid ids` covers non-empty text parsing to
a list of concept ids (possibly the empty list, from the text "[]"). -/
inductive PrereqField where
  | null : PrereqField
  | invalid : PrereqField
  | valid (ids : List Int) : PrereqField

/-- Modelled from the spec: a row of the concepts table, with the fields
`get_adaptive_assignments` reads (`id`, `name`, `prerequisite_ids`; the
`prerequisite_ids` column is added by the repository's migration script). -/
structure ConceptRow where
  id : Int
  name : String
  prerequisite_ids : PrereqField

/-- Embeds `schemas.AdaptiveAssignmentResponse` (`schemas.py`,
lines 244-252). -/
structure AdaptiveAssignmentResponse where
  assignment_id : Int
  title : String
  description : String
  difficulty_level : Int
  estimated_time : Int
deriving DecidableEq

/-- The database state read by `get_adaptive_assignments`: the mastery rows
and the concept rows. -/
structure AdaptiveDb where
  mastery : List StudentMasteryRow
  concepts : List ConceptRow

/-- The reinforcement assignment built at lines 106-136 of
`adaptive_learning.py` for the weakest concept (several syntactically
identical occurrences in the source). -/
def reinforcementAssignment (w : StudentMasteryRow) (cr : ConceptRow) :
    AdaptiveAssignmentResponse :=
  { assignment_id := w.concept_id * 10 + 1
    title := "Reinforcement: " ++ cr.name
    description := "Additional practice for " ++ cr.name
    difficulty_level := max 1 (pyInt (w.mastery_score / 20))
    estimated_time := 30 }

/-- The `for prereq_id in prereq_ids:` loop of `get_adaptive_assignments`
(lines 85-103): walk the prerequisite ids in order; at the first id whose
mastery record is missing or below 70 AND whose concept row exists, build
the Foundation assignment (the source's `break`); ids whose concept row is
missing are skipped without breaking; `none` means the loop completed
without `break` (the `for ... else` clause fires). -/
def prereqLoop (student_id : Int) (db : AdaptiveDb) (w : StudentMasteryRow)
    (wname : String) : List Int → Option AdaptiveAssignmentResponse
  | [] => none
  | pid :: rest =>
    let prereq_mastery := db.mastery.find?
      (fun m => m.student_id = student_id ∧ m.concept_id = pid)
    let unmastered : Bool :=
      match prereq_mastery with
      | none => true
      | some m => m.mastery_score < 70
    if unmastered then
      match db.concepts.find? (fun cc => cc.id = pid) with
      | some pc =>
        some { assignment_id := pc.id * 10 + 1
               title := "Foundation: " ++ pc.name
               description := "Prerequisite for " ++ wname
               difficulty_level := max 1 (pyInt (w.mastery_score / 20))
               estimated_time := 30 }
      | none => prereqLoop student_id db w wname rest
    else prereqLoop student_id db w wname rest

/-- The predicate of the `for concept in all_concepts:` search of the
mastered branch (lines 140-157): the concept's prerequisite text is truthy
and parses, contains the weakest concept's id, and the student's mastery of
that concept is missing or below 90 (a `json.JSONDecodeError` skips the
concept). -/
def isNextConcept (student_id : Int) (db : AdaptiveDb)
    (w : StudentMasteryRow) (cc : ConceptRow) : Bool :=
  match cc.prerequisite_ids with
  | PrereqField.valid ids =>
    ids.contains w.concept_id &&
      (match db.mastery.find?
          (fun m => m.student_id = student_id ∧ m.concept_id = cc.id) with
        | none => true
        | some m => m.mastery_score < 90)
  | _ => false

/-- Embeds `get_adaptive_assignments` (`adaptive_learning.py`,
lines 47-193).  The function only reads the session, so the embedding
returns the (unchanged) database alongside the response list; `none` in the
first component models the `AttributeError` crash the source would hit when
it dereferences a missing `weakest_concept.concept` relationship. -/
def get_adaptive_assignments (student_id : Int) (db : AdaptiveDb) :
    Option (List AdaptiveAssignmentResponse) × AdaptiveDb :=
  let mastery_records := db.mastery.filter (fun m => m.student_id = student_id)
  if mastery_records.isEmpty then
    (some [{ assignment_id := 1
             title := "Diagnostic Assessment"
             description :=
               "Complete this assessment to determine your current knowledge level"
             difficulty_level := 2
             estimated_time := 20 }], db)
  else
    let sorted_mastery :=
      mastery_records.mergeSort (fun a b => a.mastery_score ≤ b.mastery_score)
    match sorted_mastery.head? with
    | none =>
      (some [{ assignment_id := 2, title := "Continued Learning"
               description := "Continue building your knowledge"
               difficulty_level := 3, estimated_time := 45 }], db)
    | some w =>
      if w.mastery_score < 50 then
        match db.concepts.find? (fun cc => cc.id = w.concept_id) with
        | none => (none, db)
        | some cr =>
          match cr.prerequisite_ids with
          | PrereqField.null => (some [reinforcementAssignment w cr], db)
          | PrereqField.invalid => (some [reinforcementAssignment w cr], db)
          | PrereqField.valid ids =>
            if ids.isEmpty then (some [], db)
            else
              match prereqLoop student_id db w cr.name ids with
              | some a => (some [a], db)
              | none => (some [reinforcementAssignment w cr], db)
      else if 90 ≤ w.mastery_score then
        match db.concepts.find? (fun cc => isNextConcept student_id db w cc) with
        | some nc =>
          match db.concepts.find? (fun cc => cc.id = w.concept_id) with
          | some cr =>
            (some [{ assignment_id := nc.id * 10 + 1
                     title := "Advanced: " ++ nc.name
                     description := "Next concept after " ++ cr.name
                     difficulty_level := 4, estimated_time := 45 }], db)
          | none => (none, db)
        | none =>
          (some [{ assignment_id := 2, title := "Advanced Challenge"
                   description := "Apply your knowledge in complex contexts"
                   difficulty_level := 4, estimated_time := 60 }], db)
      else
        (some [{ assignment_id := 2, title := "Continued Learning"
                 description := "Continue building your knowledge"
                 difficulty_level := 3, estimated_time := 45 }], db)

/-- Claim C10: for a student with no mastery rows (cold start),
`get_adaptive_assignments` returns exactly one assignment — the Diagnostic
Assessment with assignment_id 1, difficulty_level 2 and estimated_time 20 —
and leaves the database unchanged. -/
theorem C10_cold_start_diagnostic (student_id : Int) (db : AdaptiveDb)
    (h : db.mastery.filter (fun m => m.student_id = student_id) = []) :
    get_adaptive_assignments student_id db
      = (some [{ assignment_id := 1
                 title := "Diagnostic Assessment"
                 description :=
                   "Complete this assessment to determine your current knowledge level"
                 difficulty_level := 2
                 estimated_time := 20 }], db) := by
  simp [get_adaptive_assignments, h]

/-- Witness for C10: a store whose only mastery row belongs to student 5,
queried for student 7. -/
theorem C10_cold_start_diagnostic_witness :
    get_adaptive_assignments 7
        { mastery := [{ student_id := 5, concept_id := 1, mastery_score := 40 }]
          concepts := [] }
      = (some [{ assignment_id := 1
                 title := "Diagnostic Assessment"
                 description :=
                   "Complete this assessment to determine your current knowledge level"
                 difficulty_level := 2
                 estimated_time := 20 }],
        { mastery := [{ student_id := 5, concept_id := 1, mastery_score := 40 }]
          concepts := [] }) :=
  C10_cold_start_diagnostic 7 _ (by simp)

/-- Embeds the fields of `models.QuizQuestion` read by
`get_question_statistics` (`models.py`, lines 311-322). -/
structure QuizQuestionRow where
  id : Int
  correct_answer : String

/-- Embeds the fields of `models.Quiz` read by `get_question_statistics`:
its id and its `questions` relationship. -/
structure QuizRow where
  id : Int
  questions : List QuizQuestionRow

/-- Modelled from the spec: a `models.StudentQuizzes` submission as read by
`get_question_statistics` (`quiz.py`): quiz id, status, numeric score, and
the `answers` JSON dict mapping question ids to submitted answers (the
`answers` column itself is absent from `models.py`; the router reads it as a
dict, possibly None — `submission.answers or {}`).  Dict keys are unique by
construction in Python; theorems assume key-uniqueness explicitly. -/
structure QuizSubmission where
  quiz_id : Int
  status : String
  score : ℚ
  answers : Option (List (Int × String))

/-- The database state read by `get_question_statistics`. -/
structure QuizDb where
  submissions : List QuizSubmission
  quizzes : List QuizRow

/-- The per-question statistics dict entry initialised at lines 563-572 of
`quiz.py`. -/
structure QuestionStat where
  total_attempts : Nat
  correct_attempts : Nat
  incorrect_attempts : Nat
  answer_distribution : String → Nat
  difficulty : ℚ
  discrimination_index : ℚ
  point_biserial : ℝ

/-- The zero-initialised statistics entry. -/
noncomputable def initStat : QuestionStat :=
  { total_attempts := 0, correct_attempts := 0, incorrect_attempts := 0
    answer_distribution := fun _ => 0, difficulty := 0
    discrimination_index := 0, point_biserial := 0 }

/-- One processed (question, answer) item of a submission (lines 579-597 of
`quiz.py`): bump total, correct/incorrect by comparison with the question's
correct answer, and the answer distribution. -/
noncomputable def bumpStat (q : QuizQuestionRow) (ans : String)
    (st : QuestionStat) : QuestionStat :=
  let st1 := { st with total_attempts := st.total_attempts + 1 }
  let st2 :=
    if ans = q.correct_answer then
      { st1 with correct_attempts := st1.correct_attempts + 1 }
    else
      { st1 with incorrect_attempts := st1.incorrect_attempts + 1 }
  { st2 with answer_distribution := fun k =>
      if k = ans then st2.answer_distribution k + 1
      else st2.answer_distribution k }

/-- The body of the `for question_id, answer in submission_answers.items():`
loop: items whose id is not a key of the stats dict (not a quiz question)
are skipped; otherwise the entry at that id is bumped (the `next(...)`
lookup of the question always succeeds for dict keys but is modelled
faithfully with `find?`). -/
noncomputable def processAnswerItem (questions : List QuizQuestionRow)
    (stats : Int → QuestionStat) (qa : Int × String) : Int → QuestionStat :=
  if questions.any (fun q => q.id = qa.1) then
    match questions.find? (fun q => q.id = qa.1) with
    | some q => fun qid => if qid = qa.1 then bumpStat q qa.2 (stats qa.1)
        else stats qid
    | none => stats
  else stats

/-- Processing of one submission: fold the answer items
(`submission.answers or {}`). -/
noncomputable def processSubmission (questions : List QuizQuestionRow)
    (stats : Int → QuestionStat) (s : QuizSubmission) : Int → QuestionStat :=
  (s.answers.getD []).foldl (processAnswerItem questions) stats

/-- Python's `str(answer)` where `answer` came from
`submission_answers.get(str(question_id))`: a missing key yields `None`,
whose string form is "None". -/
def pyStrOptAnswer : Option String → String
  | some a => a
  | none => "None"

/-- Whether a submission answers question `q` correctly in the high/low-group
counting loops (lines 622-634 of `quiz.py`):
`str(answer) == str(question.correct_answer)` with `answer` possibly
missing. -/
def submissionMatchesCorrect (q : QuizQuestionRow) (s : QuizSubmission) :
    Bool :=
  pyStrOptAnswer ((s.answers.getD []).lookup q.id) = q.correct_answer

/-- The submissions query of `get_question_statistics` (lines 548-551 of
`quiz.py`): submissions of the quiz with status "submitted". -/
def submittedFor (db : QuizDb) (quiz_id : Int) : List QuizSubmission :=
  db.submissions.filter (fun s => s.quiz_id = quiz_id ∧ s.status = "submitted")

/-- The top/bottom group size of the discrimination pass
(line 610 of `quiz.py`): `max(1, int(n * 0.27))`, Kelley's 27% criterion.
(`int(n * 0.27)` in binary floating point agrees with the exact
`⌊27 n / 100⌋` because the float 0.27 exceeds 27/100 by under one part in
10^16, far too little to cross an integer boundary.) -/
def kelleyGroupSize (n : Nat) : Nat := max 1 (27 * n / 100)

/-- The statistics map computed by `get_question_statistics` for a found
quiz (lines 562-648 of `quiz.py`): the submission-processing fold, the
difficulty pass (`correct / total` where total > 0; entries at ids outside
the quiz keep total 0 and are unaffected), and — when there is more than one
submission — the discrimination / point-biserial pass over the top and
bottom score groups of the score-sorted submission list. -/
noncomputable def statsAfterLoop (quiz : QuizRow)
    (submissions : List QuizSubmission) : Int → QuestionStat :=
  submissions.foldl
    (fun st s => processSubmission quiz.questions st s) (fun _ => initStat)

noncomputable def quizQuestionStats (quiz : QuizRow)
    (submissions : List QuizSubmission) : Int → QuestionStat :=
  let statsLoop := statsAfterLoop quiz submissions
  let statsD : Int → QuestionStat := fun qid =>
    let st := statsLoop qid
    if 0 < st.total_attempts then
      { st with difficulty :=
          (st.correct_attempts : ℚ) / (st.total_attempts : ℚ) }
    else st
  if 1 < submissions.length then
    let sorted := submissions.mergeSort (fun a b => a.score ≤ b.score)
    let n := sorted.length
    let n_group := kelleyGroupSize n
    let high_group := sorted.drop (n - n_group)
    let low_group := sorted.take n_group
    fun qid =>
      match quiz.questions.find? (fun qq => qq.id = qid) with
      | some q =>
        let st := statsD qid
        let high_correct := high_group.countP
          (fun s => submissionMatchesCorrect q s)
        let low_correct := low_group.countP
          (fun s => submissionMatchesCorrect q s)
        let st := { st with discrimination_index :=
            ((high_correct : ℚ) - (low_correct : ℚ)) / (n_group : ℚ) }
        let p : ℚ := st.difficulty
        let pq : ℚ := 1 - p
        if 0 < p ∧ 0 < pq then
          { st with point_biserial :=
              ((high_correct : ℝ) - (low_correct : ℝ))
                / ((n_group : ℝ) * Real.sqrt ((p : ℝ) * (pq : ℝ))) }
        else st
      | none => statsD qid
  else statsD

/-- Embeds `get_question_statistics` (`quiz.py`, lines 543-648); `none`
models the `{}` returned when the quiz does not exist. -/
noncomputable def get_question_statistics (db : QuizDb) (quiz_id : Int) :
    Option (Int → QuestionStat) :=
  match db.quizzes.find? (fun qz => qz.id = quiz_id) with
  | none => none
  | some quiz => some (quizQuestionStats quiz (submittedFor db quiz_id))

/-- Declarative count predicate: the submission has an answer recorded for
the question id. -/
def hasAnswerFor (qid : Int) (s : QuizSubmission) : Bool :=
  ((s.answers.getD []).lookup qid).isSome

/-- Declarative count predicate: the submission's recorded answer for the
question equals its correct answer. -/
def answeredCorrectly (q : QuizQuestionRow) (s : QuizSubmission) : Bool :=
  match (s.answers.getD []).lookup q.id with
  | some a => a = q.correct_answer
  | none => false

lemma bumpStat_total (q : QuizQuestionRow) (a : String) (st : QuestionStat) :
    (bumpStat q a st).total_attempts = st.total_attempts + 1 := by
  unfold bumpStat
  split <;> rfl

lemma bumpStat_correct (q : QuizQuestionRow) (a : String) (st : QuestionStat) :
    (bumpStat q a st).correct_attempts
      = st.correct_attempts + (if a = q.correct_answer then 1 else 0) := by
  unfold bumpStat
  split <;> simp [*]

lemma processAnswerItem_apply_ne (questions : List QuizQuestionRow)
    (stats : Int → QuestionStat) (qa : Int × String) (qid : Int)
    (h : qa.1 ≠ qid) :
    processAnswerItem questions stats qa qid = stats qid := by
  unfold processAnswerItem
  split
  · rcases hf : questions.find? (fun q => q.id = qa.1) with _ | qq
    · simp [hf]
    · simp only [hf]
      exact if_neg fun hh => h hh.symm
  · rfl

lemma innerFold_ne (questions : List QuizQuestionRow)
    (items : List (Int × String)) (stats : Int → QuestionStat) (qid : Int)
    (h : ∀ p ∈ items, p.1 ≠ qid) :
    (items.foldl (processAnswerItem questions) stats) qid = stats qid := by
  induction items generalizing stats with
  | nil => rfl
  | cons hd tl ih =>
    rw [List.foldl_cons, ih _ fun p hp => h p (List.mem_cons_of_mem _ hp),
      processAnswerItem_apply_ne _ _ _ _ (h hd (List.mem_cons_self _ _))]

lemma innerFold_apply (questions : List QuizQuestionRow)
    (items : List (Int × String)) (stats : Int → QuestionStat)
    (q : QuizQuestionRow)
    (hfind : questions.find? (fun qq => qq.id = q.id) = some q)
    (hnd : (items.map Prod.fst).Nodup) :
    (items.foldl (processAnswerItem questions) stats) q.id
      = match items.lookup q.id with
        | some a => bumpStat q a (stats q.id)
        | none => stats q.id := by
  induction items generalizing stats with
  | nil => rfl
  | cons hd tl ih =>
    obtain ⟨k, v⟩ := hd
    have hndc : (k :: tl.map Prod.fst).Nodup := by
      simpa only [List.map_cons] using hnd
    have hknotin : k ∉ tl.map Prod.fst := (List.nodup_cons.mp hndc).1
    have hndtl : (tl.map Prod.fst).Nodup := (List.nodup_cons.mp hndc).2
    by_cases hk : k = q.id
    · subst hk
      have htl : ∀ p ∈ tl, p.1 ≠ q.id := by
        intro p hp hcontra
        exact hknotin (hcontra ▸ List.mem_map_of_mem Prod.fst hp)
      rw [List.foldl_cons, innerFold_ne _ _ _ _ htl]
      have hany : questions.any (fun qq => qq.id = q.id) = true :=
        List.any_eq_true.mpr ⟨q, List.mem_of_find?_eq_some hfind, by simp⟩
      have hstep : processAnswerItem questions stats (q.id, v) q.id
          = bumpStat q v (stats q.id) := by
        unfold processAnswerItem
        rw [if_pos hany, hfind]
        exact if_pos rfl
      rw [hstep]
      simp [List.lookup]
    · have hstep := processAnswerItem_apply_ne questions stats (k, v) q.id hk
      have hbeq : (q.id == k) = false :=
        beq_eq_false_iff_ne.mpr fun h' => hk h'.symm
      rw [List.foldl_cons, ih _ hndtl]
      rcases hl : List.lookup q.id tl with _ | a <;>
        simp [hl, hstep, List.lookup, hbeq]

lemma outerFold_counts (questions : List QuizQuestionRow)
    (subs : List QuizSubmission) (stats : Int → QuestionStat)
    (q : QuizQuestionRow)
    (hfind : questions.find? (fun qq => qq.id = q.id) = some q)
    (hnd : ∀ s ∈ subs, ((s.answers.getD []).map Prod.fst).Nodup) :
    ((subs.foldl (fun st s => processSubmission questions st s) stats) q.id).total_attempts
        = (stats q.id).total_attempts + subs.countP (hasAnswerFor q.id) ∧
      ((subs.foldl (fun st s => processSubmission questions st s) stats) q.id).correct_attempts
        = (stats q.id).correct_attempts + subs.countP (answeredCorrectly q) := by
  induction subs generalizing stats with
  | nil => simp
  | cons s tl ih =>
    have hs : processSubmission questions stats s q.id
        = match (s.answers.getD []).lookup q.id with
          | some a => bumpStat q a (stats q.id)
          | none => stats q.id :=
      innerFold_apply questions _ stats q hfind (hnd s (List.mem_cons_self _ _))
    have ihtl := ih (processSubmission questions stats s)
      (fun s' hs' => hnd s' (List.mem_cons_of_mem _ hs'))
    rw [List.foldl_cons]
    clear ih
    rcases hl : (s.answers.getD []).lookup q.id with _ | a
    · simp only [hl] at hs
      have hha : hasAnswerFor q.id s = false := by
        simp [hasAnswerFor, hl]
      have hac : answeredCorrectly q s = false := by
        simp [answeredCorrectly, hl]
      constructor
      · rw [ihtl.1, hs, List.countP_cons, hha, if_neg (by simp)]
        omega
      · rw [ihtl.2, hs, List.countP_cons, hac, if_neg (by simp)]
        omega
    · simp only [hl] at hs
      have hha : hasAnswerFor q.id s = true := by
        simp [hasAnswerFor, hl]
      obtain ⟨iht, ihc⟩ := ihtl
      constructor
      · rw [iht, hs, bumpStat_total, List.countP_cons, hha,
          if_pos rfl]
        omega
      · rw [ihc, hs, bumpStat_correct, List.countP_cons]
        by_cases hc : a = q.correct_answer
        · have hac : answeredCorrectly q s = true := by
            simp [answeredCorrectly, hl, hc]
          rw [hac, if_pos hc, if_pos rfl]
          omega
        · have hac : answeredCorrectly q s = false := by
            simp [answeredCorrectly, hl, hc]
          rw [hac, if_neg hc, if_neg (by simp)]
          omega

lemma quizStats_fields (quiz : QuizRow) (subs : List QuizSubmission)
    (q : QuizQuestionRow)
    (hq : quiz.questions.find? (fun qq => qq.id = q.id) = some q)
    (hn : 1 < subs.length) :
    (quizQuestionStats quiz subs q.id).total_attempts
        = (statsAfterLoop quiz subs q.id).total_attempts ∧
      (quizQuestionStats quiz subs q.id).correct_attempts
        = (statsAfterLoop quiz subs q.id).correct_attempts ∧
      (quizQuestionStats quiz subs q.id).difficulty
        = (if 0 < (statsAfterLoop quiz subs q.id).total_attempts
            then ((statsAfterLoop quiz subs q.id).correct_attempts : ℚ)
              / ((statsAfterLoop quiz subs q.id).total_attempts : ℚ)
            else (statsAfterLoop quiz subs q.id).difficulty) ∧
      (quizQuestionStats quiz subs q.id).discrimination_index
        = ((((subs.mergeSort (fun a b => a.score ≤ b.score)).drop
              (subs.length - kelleyGroupSize subs.length)).countP
              (fun s => submissionMatchesCorrect q s) : ℚ)
            - (((subs.mergeSort (fun a b => a.score ≤ b.score)).take
              (kelleyGroupSize subs.length)).countP
              (fun s => submissionMatchesCorrect q s) : ℚ))
          / (kelleyGroupSize subs.length : ℚ) := by
  have hlen : (subs.mergeSort (fun a b => a.score ≤ b.score)).length
      = subs.length := List.length_mergeSort subs
  refine ⟨?_, ?_, ?_, ?_⟩ <;>
    · simp only [quizQuestionStats, hq, hn, if_true, hlen]
      split <;> (try split) <;> simp_all

/-- Claim C7: for a quiz with more than one submitted submission,
`get_question_statistics` partitions the submissions sorted by score into a
bottom and a top group of size `max(1, ⌊0.27 n⌋)` (Kelley's criterion); for
every question of the quiz the resulting entry has `total_attempts` /
`correct_attempts` counting the submissions answering it (resp. answering it
correctly), `difficulty = correct_attempts / total_attempts` whenever
`total_attempts > 0`, and `discrimination_index = (high_correct -
low_correct) / n_group`, the difference in correct counts between the top
and bottom groups over the group size. -/
theorem C7_question_statistics (db : QuizDb) (quiz_id : Int) (quiz : QuizRow)
    (stats : Int → QuestionStat) (q : QuizQuestionRow)
    (hquiz : db.quizzes.find? (fun qz => qz.id = quiz_id) = some quiz)
    (hstats : get_question_statistics db quiz_id = some stats)
    (hq : quiz.questions.find? (fun qq => qq.id = q.id) = some q)
    (hnd : ∀ s ∈ submittedFor db quiz_id,
      ((s.answers.getD []).map Prod.fst).Nodup)
    (hn : 1 < (submittedFor db quiz_id).length) :
    (stats q.id).total_attempts
        = (submittedFor db quiz_id).countP (hasAnswerFor q.id) ∧
      (stats q.id).correct_attempts
        = (submittedFor db quiz_id).countP (answeredCorrectly q) ∧
      (0 < (stats q.id).total_attempts →
        (stats q.id).difficulty
          = ((stats q.id).correct_attempts : ℚ)
            / ((stats q.id).total_attempts : ℚ)) ∧
      (stats q.id).discrimination_index
        = (((((submittedFor db quiz_id).mergeSort
                (fun a b => a.score ≤ b.score)).drop
              ((submittedFor db quiz_id).length
                - kelleyGroupSize (submittedFor db quiz_id).length)).countP
              (fun s => submissionMatchesCorrect q s) : ℚ)
            - ((((submittedFor db quiz_id).mergeSort
                (fun a b => a.score ≤ b.score)).take
              (kelleyGroupSize (submittedFor db quiz_id).length)).countP
              (fun s => submissionMatchesCorrect q s) : ℚ))
          / (kelleyGroupSize (submittedFor db quiz_id).length : ℚ) := by
  have hstats_eq : stats = quizQuestionStats quiz (submittedFor db quiz_id) := by
    unfold get_question_statistics at hstats
    rw [hquiz] at hstats
    exact (Option.some.inj hstats).symm
  subst hstats_eq
  obtain ⟨hf1, hf2, hf3, hf4⟩ :=
    quizStats_fields quiz (submittedFor db quiz_id) q hq hn
  have hcounts := outerFold_counts quiz.questions (submittedFor db quiz_id)
    (fun _ => initStat) q hq hnd
  have hbase_t : (statsAfterLoop quiz (submittedFor db quiz_id) q.id).total_attempts
      = (submittedFor db quiz_id).countP (hasAnswerFor q.id) := by
    simp only [statsAfterLoop]
    rw [hcounts.1]
    simp [initStat]
  have hbase_c : (statsAfterLoop quiz (submittedFor db quiz_id) q.id).correct_attempts
      = (submittedFor db quiz_id).countP (answeredCorrectly q) := by
    simp only [statsAfterLoop]
    rw [hcounts.2]
    simp [initStat]
  refine ⟨?_, ?_, ?_, ?_⟩
  · rw [hf1, hbase_t]
  · rw [hf2, hbase_c]
  · intro hpos
    rw [hf1] at hpos
    rw [hf3, if_pos hpos, hf1, hf2]
  · exact hf4

/-- Concrete quiz for the C7 witness: one question (id 10, correct answer
"A"). -/
def c7WitnessQuiz : QuizRow := { id := 1, questions := [{ id := 10, correct_answer := "A" }] }

/-- Concrete database for the C7 witness: two submitted submissions for
quiz 1, scores 90 and 40. -/
def c7WitnessDb : QuizDb :=
  { submissions :=
      [{ quiz_id := 1, status := "submitted", score := 90
         answers := some [(10, "A")] },
       { quiz_id := 1, status := "submitted", score := 40
         answers := some [(10, "B")] }]
    quizzes := [c7WitnessQuiz] }

/-- Witness for C7 on the concrete two-submission database. -/
theorem C7_question_statistics_witness :
    (quizQuestionStats c7WitnessQuiz (submittedFor c7WitnessDb 1)
        (({ id := 10, correct_answer := "A" } : QuizQuestionRow).id)).total_attempts
      = (submittedFor c7WitnessDb 1).countP
          (hasAnswerFor ({ id := 10, correct_answer := "A" } : QuizQuestionRow).id) :=
  (C7_question_statistics c7WitnessDb 1 c7WitnessQuiz _
    { id := 10, correct_answer := "A" }
    (by simp [c7WitnessDb, c7WitnessQuiz])
    rfl
    (by simp [c7WitnessQuiz])
    (by simp [submittedFor, c7WitnessDb])
    (by simp [submittedFor, c7WitnessDb])).1
